import Mathlib

set_option linter.unusedSectionVars false

/- Shallow embedding of expiring_arrays.py (LRUArray, TTLArray, STLArray).

   Modelling conventions:
   * A Python deque is a `List`, index 0 = left end.  `appendleft` is
     `List.cons`, `pop` takes the last element (the right end), and
     `deque.remove` deletes the first (leftmost) occurrence.
   * A Python dict is an insertion-ordered association list with unique keys,
     maintained by `dictUpdate` (replace in place, or append a new key) and
     `dictErase` (`del`, which fails on a missing key).
   * `datetime` values (TTLArray) are modelled at one-second resolution as
     `Int` seconds.  For an integral timedelta, the Python attribute
     `.seconds` equals the total elapsed seconds modulo 86400 (Python floor
     mod, which is `Int.emod` for a positive modulus).  STLArray timestamps
     are already plain integer seconds (`int(time.time())`).
   * Exceptions are modelled with `Except`: an error carries the exception
     name and the object state at the moment of the raise (Python mutates in
     place and does not roll back).
   * `json.dumps` / `json.loads` of the timing list is modelled as the
     identity on the `(timestamp, element)` list, exact for
     JSON-representable elements with integer timestamps.
   * The module-level thread lock is not modelled; it does not affect the
     sequential semantics of any single call.  The `expire` decorator is the
     pre-check (run `_check_expired`, then the body); `expire_post` is the
     post-check (body first, then `_check_expired`). -/

variable {α : Type} [DecidableEq α] {β : Type} [DecidableEq β]

/-- Python dict lookup `m[k]` (first matching key), `none` when missing. -/
def dictLookup : List (α × Int) → α → Option Int
  | [], _ => none
  | (a, t) :: m, k => if a = k then some t else dictLookup m k

/-- Python `k in m`. -/
def dictContains (m : List (α × Int)) (k : α) : Bool :=
  (dictLookup m k).isSome

/-- Python `m.update({k: v})`: replace the value in place if the key exists,
otherwise append the new key at the end (dicts preserve insertion order). -/
def dictUpdate : List (α × Int) → α → Int → List (α × Int)
  | [], k, v => [(k, v)]
  | (a, t) :: m, k, v => if a = k then (a, v) :: m else (a, t) :: dictUpdate m k v

/-- Python `del m[k]`: remove the key, or fail (KeyError) when it is missing. -/
def dictErase : List (α × Int) → α → Option (List (α × Int))
  | [], _ => none
  | (a, t) :: m, k =>
    if a = k then some m else (dictErase m k).map (fun r => (a, t) :: r)

/-- Python `dict(pairs)`: left fold of updates, later duplicates win. -/
def dictFromPairs (ps : List (α × Int)) : List (α × Int) :=
  ps.foldl (fun m p => dictUpdate m p.1 p.2) []

/-- Python `deque.remove(b)`: delete the first occurrence of `b`, or fail
(ValueError) when `b` is absent. -/
def removeFirst : List β → β → Option (List β)
  | [], _ => none
  | a :: l, b => if a = b then some l else (removeFirst l b).map (fun r => a :: r)

/-- State of a `TTLArray` / `STLArray`: `timing` is the deque of
`[timestamp, element]` records (head = newest), `items` is the
element-to-timestamp dict, plus the constructor parameters. -/
structure TTLState (α : Type) where
  timing : List (Int × α)
  items : List (α × Int)
  timeout : Int
  max_length : Nat
  retain_one : Bool
  threadsafe : Bool
deriving DecidableEq

/-- `TTLArray.__init__` / `STLArray.__init__` (both start empty). -/
def ttlInit (timeout : Int) (retain_one : Bool) (max_length : Nat)
    (threadsafe : Bool) : TTLState α :=
  ⟨[], [], timeout, max_length, retain_one, threadsafe⟩

/-- `BaseExpiringArray._check_max_length`: `len(self._items) > self.max_length`. -/
def checkMaxLength (s : TTLState α) : Bool :=
  decide (s.items.length > s.max_length)

/-- `TTLArray._check_retain_one`: `self.retain_one and len(self._items) == 1`. -/
def checkRetainOne (s : TTLState α) : Bool :=
  s.retain_one && (s.items.length == 1)

/-- `TTLArray._remove_expired_item`: `item = self._timing.pop()[1]` (IndexError
on an empty deque), then `del self._items[item]` (KeyError if absent, with the
pop already applied). -/
def removeExpiredItem (s : TTLState α) : Except (String × TTLState α) (TTLState α) :=
  match s.timing.getLast? with
  | none => .error ("IndexError", s)
  | some r =>
    let s1 : TTLState α := { s with timing := s.timing.dropLast }
    match dictErase s1.items r.2 with
    | none => .error ("KeyError", s1)
    | some m => .ok { s1 with items := m }

/-- The capacity loop of `_check_expired`:
`while self._check_max_length(): self._remove_expired_item()`, written with a
fuel argument.  The wrapper `capacityLoop` passes `timing.length` as fuel;
every successful iteration shortens `timing` by one, so fuel 0 is only reached
with an empty timing deque, where the loop body's pop raises IndexError on the
unchanged state, exactly as written in the fuel-0 branch. -/
def capacityLoopFuel : Nat → TTLState α → Except (String × TTLState α) (TTLState α)
  | 0, s => if checkMaxLength s then .error ("IndexError", s) else .ok s
  | fuel + 1, s =>
    if checkMaxLength s then
      match removeExpiredItem s with
      | .error e => .error e
      | .ok s1 => capacityLoopFuel fuel s1
    else .ok s

def capacityLoop (s : TTLState α) : Except (String × TTLState α) (TTLState α) :=
  capacityLoopFuel s.timing.length s

/-- The age sweep of `_check_expired`:
`for date_obj, _ in list(self._timing): ...` — the loop iterates over a
snapshot of the timing deque taken left to right (newest first), tests the
snapshot entry with the variant's expiry test, removes the current *tail* via
`_remove_expired_item` when the test fires, and breaks otherwise. -/
def sweepLoop (test : Int → Int → Int → Bool) (now : Int) :
    List (Int × α) → TTLState α → Except (String × TTLState α) (TTLState α)
  | [], s => .ok s
  | (ts, _) :: rest, s =>
    if test now ts s.timeout then
      match removeExpiredItem s with
      | .error e => .error e
      | .ok s1 => sweepLoop test now rest s1
    else .ok s

/-- `TTLArray._check_expired` / `STLArray._check_expired`, parameterized by
the variant's expiry test (the only difference between the two methods). -/
def checkExpired (test : Int → Int → Int → Bool) (now : Int) (s : TTLState α) :
    Except (String × TTLState α) (TTLState α) :=
  if checkRetainOne s then .ok s
  else
    match capacityLoop s with
    | .error e => .error e
    | .ok s1 => sweepLoop test now s1.timing s1

/-- TTLArray expiry test: `(self._no_right_now() - date_obj).seconds > self.timeout`.
For integral datetimes, `timedelta.seconds` is the elapsed time modulo 86400. -/
def ttlExpired (now ts timeout : Int) : Bool :=
  decide ((now - ts).emod 86400 > timeout)

/-- STLArray expiry test: `self._no_right_now() - date_obj > self.timeout`
(plain integer subtraction). -/
def stlExpired (now ts timeout : Int) : Bool :=
  decide (now - ts > timeout)

/-- `TTLArray.add` (`@expire`: pre-check, then the body).  If the element is
tracked, its old `[time, item]` record is removed from the deque, then a fresh
record is pushed at the head and the dict is updated with `now`. -/
def addOp (test : Int → Int → Int → Bool) (now : Int) (x : α) (s : TTLState α) :
    Except (String × TTLState α) (TTLState α) :=
  match checkExpired test now s with
  | .error e => .error e
  | .ok s1 =>
    match dictLookup s1.items x with
    | some t =>
      match removeFirst s1.timing (t, x) with
      | none => .error ("ValueError", s1)
      | some tl =>
        .ok { s1 with timing := (now, x) :: tl, items := dictUpdate s1.items x now }
    | none =>
      .ok { s1 with timing := (now, x) :: s1.timing, items := dictUpdate s1.items x now }

/-- `TTLArray.items` (`@expire`): pre-check, then `[i[1] for i in self._timing]`. -/
def itemsOp (test : Int → Int → Int → Bool) (now : Int) (s : TTLState α) :
    Except (String × TTLState α) (TTLState α × List α) :=
  match checkExpired test now s with
  | .error e => .error e
  | .ok s1 => .ok (s1, s1.timing.map (fun p => p.2))

/-- The `params` sub-dict written by `dump(include_params=True)`:
`_retain_one` and `_threadsafe` are stringified booleans. -/
structure TTLParams where
  timeout : Int
  max_length : Nat
  retain_one : String
  threadsafe : String
deriving DecidableEq

def ttlParamsOf (s : TTLState α) : TTLParams :=
  ⟨s.timeout, s.max_length,
    if s.retain_one then "True" else "False",
    if s.threadsafe then "True" else "False"⟩

/-- The snapshot dict produced by `dump` and consumed by `load`.  Each field
is optional because `load` indexes the dict and can hit a KeyError. -/
structure TTLSnap (α : Type) where
  timing_list : Option (List Int)
  item_list : Option (List α)
  params : Option TTLParams
deriving DecidableEq

/-- `TTLArray.dump` (`@expire`): after the pre-check, returns `None` when the
timing deque is empty; otherwise unzips the deque into parallel
`timing_list` / `item_list` entries, with `params` when requested. -/
def dumpOp (test : Int → Int → Int → Bool) (now : Int) (include_params : Bool)
    (s : TTLState α) :
    Except (String × TTLState α) (TTLState α × Option (TTLSnap α)) :=
  match checkExpired test now s with
  | .error e => .error e
  | .ok s1 =>
    match s1.timing with
    | [] => .ok (s1, none)
    | _ => .ok (s1, some ⟨some (s1.timing.map (fun p => p.1)),
                          some (s1.timing.map (fun p => p.2)),
                          if include_params then some (ttlParamsOf s1) else none⟩)

/-- `TTLArray._load_lists`: `self._items = dict(zip(item_list, timing_list))`
and `self._timing = deque(list(i) for i in zip(timing_list, item_list))`. -/
def loadLists (il : List α) (tl : List Int) (s : TTLState α) : TTLState α :=
  { s with items := dictFromPairs (il.zip tl), timing := tl.zip il }

/-- `TTLArray._load_params`. -/
def loadParams (p : TTLParams) (s : TTLState α) : TTLState α :=
  { s with timeout := p.timeout, max_length := p.max_length,
           retain_one := p.retain_one == "True",
           threadsafe := p.threadsafe == "True" }

/-- `TTLArray.load` (`@expire_post`): index `item_list` then `timing_list`
(KeyError on a missing field, raised before any mutation), load the lists,
optionally load params, then run the post-check. -/
def loadOp (test : Int → Int → Int → Bool) (now : Int) (d : TTLSnap α)
    (s : TTLState α) : Except (String × TTLState α) (TTLState α) :=
  match d.item_list with
  | none => .error ("KeyError: item_list", s)
  | some il =>
    match d.timing_list with
    | none => .error ("KeyError: timing_list", s)
    | some tl =>
      let s1 := loadLists il tl s
      let s2 := match d.params with
        | some p => loadParams p s1
        | none => s1
      checkExpired test now s2

/-- `load` applied to the result of `dump`, which may be `None`; Python then
fails with `TypeError: NoneType object is not subscriptable` on
`dictionary[...]`, before any mutation. -/
def loadOptOp (test : Int → Int → Int → Bool) (now : Int) (d : Option (TTLSnap α))
    (s : TTLState α) : Except (String × TTLState α) (TTLState α) :=
  match d with
  | none => .error ("TypeError: NoneType is not subscriptable", s)
  | some snap => loadOp test now snap s

/-- `TTLArray.dump_timing_list` (`@expire`): pre-check, then `list(self._timing)`. -/
def dumpTimingListOp (test : Int → Int → Int → Bool) (now : Int) (s : TTLState α) :
    Except (String × TTLState α) (TTLState α × List (Int × α)) :=
  match checkExpired test now s with
  | .error e => .error e
  | .ok s1 => .ok (s1, s1.timing)

/-- `TTLArray._rebuild_items`: `dict([(v, k) for k, v in t])`. -/
def rebuildItems (t : List (Int × α)) : List (α × Int) :=
  dictFromPairs (t.map (fun p => (p.2, p.1)))

/-- `TTLArray.load_from_timing_list` (`@expire_post`): replace the timing
deque, rebuild the dict, then run the post-check. -/
def loadFromTimingListOp (test : Int → Int → Int → Bool) (now : Int)
    (t : List (Int × α)) (s : TTLState α) :
    Except (String × TTLState α) (TTLState α) :=
  checkExpired test now { s with timing := t, items := rebuildItems t }

/-- `TTLArray.serialize` (`@expire`): pre-check, then
`json.dumps(list(self._timing))`, modelled as the timing list itself (the JSON
round trip is the identity for JSON-representable elements; for TTLArray's
datetime timestamps `json.dumps` would raise TypeError — the spec's open
encoding defect — which no claim exercises, so only the STL instantiation is
used below). -/
def serializeOp (test : Int → Int → Int → Bool) (now : Int) (s : TTLState α) :
    Except (String × TTLState α) (TTLState α × List (Int × α)) :=
  match checkExpired test now s with
  | .error e => .error e
  | .ok s1 => .ok (s1, s1.timing)

/-- `TTLArray.deserialize` (`@expire_post`): `self._timing = deque(json.loads(s))`
— note that `self._items` is *not* rebuilt — then the post-check. -/
def deserializeOp (test : Int → Int → Int → Bool) (now : Int)
    (l : List (Int × α)) (s : TTLState α) :
    Except (String × TTLState α) (TTLState α) :=
  checkExpired test now { s with timing := l }

/-- State of an `LRUArray`: `items` is the deque (head = newest) plus the
constructor parameters. -/
structure LRUState (α : Type) where
  items : List α
  max_length : Nat
  threadsafe : Bool
deriving DecidableEq

/-- `LRUArray.__init__`. -/
def lruInit (max_length : Nat) (threadsafe : Bool) : LRUState α :=
  ⟨[], max_length, threadsafe⟩

/-- `BaseExpiringArray._check_max_length` for the LRU deque. -/
def lruCheckMaxLength (s : LRUState α) : Bool :=
  decide (s.items.length > s.max_length)

/-- `LRUArray._check_expired`: `while self._check_max_length(): self._items.pop()`,
with fuel `items.length`; at fuel 0 the deque is empty, so the condition is
false and the loop exits, as in the fuel-0 branch. -/
def lruCheckFuel : Nat → LRUState α → LRUState α
  | 0, s => s
  | fuel + 1, s =>
    if lruCheckMaxLength s then lruCheckFuel fuel { s with items := s.items.dropLast }
    else s

def lruCheckExpired (s : LRUState α) : LRUState α :=
  lruCheckFuel s.items.length s

/-- `LRUArray.add` (`@expire`): pre-check; if the item is present remove its
first occurrence; then `appendleft`. -/
def lruAdd (x : α) (s : LRUState α) : LRUState α :=
  let s1 := lruCheckExpired s
  if x ∈ s1.items then { s1 with items := x :: s1.items.erase x }
  else { s1 with items := x :: s1.items }

/-- `LRUArray.items` (`@expire`): pre-check, then `list(self._items)`. -/
def lruItems (s : LRUState α) : LRUState α × List α :=
  let s1 := lruCheckExpired s
  (s1, s1.items)

/-- `LRUArray.dump` (`@expire`). -/
def lruDump (s : LRUState α) : LRUState α × List α :=
  let s1 := lruCheckExpired s
  (s1, s1.items)

/-- `LRUArray.load` (`@expire_post`): replace the deque, then post-check. -/
def lruLoad (l : List α) (s : LRUState α) : LRUState α :=
  lruCheckExpired { s with items := l }

/-- `BaseExpiringArray.__len__`: `len(self.items)` (the `items` property, so
the pre-check runs before the length is observed). -/
def lruLen (s : LRUState α) : Nat :=
  (lruItems s).2.length

/-- Claim C1 (code_bug evidence).  The age sweep of `_check_expired` iterates
the snapshot of the timing deque from the head (newest) end and breaks at the
first fresh snapshot entry, while `_remove_expired_item` pops the tail; so a
stale tail record survives whenever the newest record is fresh.  STL variant,
timeout 10, capacity 10: add "a" at t=0, add "b" at t=5, then `items()` at
t=12 still returns ["b", "a"] although "a" has elapsed 12 > 10. -/
theorem stl_sweep_leaves_stale_item :
    addOp stlExpired 0 "a" (ttlInit (α := String) 10 false 10 true)
      = .ok ⟨[(0, "a")], [("a", 0)], 10, 10, false, true⟩
    ∧ addOp stlExpired 5 "b" ⟨[(0, "a")], [("a", 0)], 10, 10, false, true⟩
      = .ok ⟨[(5, "b"), (0, "a")], [("a", 0), ("b", 5)], 10, 10, false, true⟩
    ∧ itemsOp stlExpired 12 ⟨[(5, "b"), (0, "a")], [("a", 0), ("b", 5)], 10, 10, false, true⟩
      = .ok (⟨[(5, "b"), (0, "a")], [("a", 0), ("b", 5)], 10, 10, false, true⟩, ["b", "a"])
    ∧ stlExpired 12 0 10 = true := by
  exact ⟨rfl, rfl, rfl, rfl⟩

/-- Claim C2 (code_bug evidence).  `deserialize` replaces the timing deque
but never rebuilds the element-to-timestamp dict (`_rebuild_items` is only
called by `load_from_timing_list`): on a fresh STL instance,
`deserialize('[[5, "a"]]')` at t=5 leaves timing = [(5, "a")] while the dict
stays empty — the map no longer agrees with the timing sequence. -/
theorem stl_deserialize_breaks_map :
    deserializeOp stlExpired 5 [(5, "a")] (ttlInit (α := String) 60 false 100 true)
      = .ok ⟨[(5, "a")], [], 60, 100, false, true⟩
    ∧ (5, "a") ∈ (⟨[(5, "a")], [], 60, 100, false, true⟩ : TTLState String).timing
    ∧ dictLookup (⟨[(5, "a")], [], 60, 100, false, true⟩ : TTLState String).items "a" = none := by
  exact ⟨rfl, by decide, rfl⟩

/-- Claim C3 (code_bug evidence).  The capacity loop tests `len(self._items)`
(the dict), which `deserialize` leaves empty, so nothing is evicted: on a
fresh STL instance with max_length 1, `deserialize('[[5,"a"],[5,"b"]]')`
followed by `items()` at t=5 observes 2 elements > max_length = 1, with
retain_one unset. -/
theorem stl_deserialize_defeats_capacity :
    deserializeOp stlExpired 5 [(5, "a"), (5, "b")] (ttlInit (α := String) 60 false 1 true)
      = .ok ⟨[(5, "a"), (5, "b")], [], 60, 1, false, true⟩
    ∧ itemsOp stlExpired 5 ⟨[(5, "a"), (5, "b")], [], 60, 1, false, true⟩
      = .ok (⟨[(5, "a"), (5, "b")], [], 60, 1, false, true⟩, ["a", "b"])
    ∧ (["a", "b"] : List String).length > (ttlInit (α := String) 60 false 1 true).max_length := by
  exact ⟨rfl, rfl, by decide⟩

/-- Claim C4 (code_bug evidence).  `_check_retain_one` is consulted once at
the entry of `_check_expired`; entered with two elements, the capacity loop
and the sweep then evict everything.  STL variant, timeout 10, max_length 1,
retain_one set: add "a" at t=0, add "b" at t=0 (the retain-one gate skips the
pre-check while size is 1), then `items()` at t=20 empties the collection. -/
theorem stl_retain_one_collection_emptied :
    addOp stlExpired 0 "a" (ttlInit (α := String) 10 true 1 true)
      = .ok ⟨[(0, "a")], [("a", 0)], 10, 1, true, true⟩
    ∧ addOp stlExpired 0 "b" ⟨[(0, "a")], [("a", 0)], 10, 1, true, true⟩
      = .ok ⟨[(0, "b"), (0, "a")], [("a", 0), ("b", 0)], 10, 1, true, true⟩
    ∧ itemsOp stlExpired 20 ⟨[(0, "b"), (0, "a")], [("a", 0), ("b", 0)], 10, 1, true, true⟩
      = .ok (⟨[], [], 10, 1, true, true⟩, []) := by
  exact ⟨rfl, rfl, rfl⟩

/-- Claim C5 (code_bug evidence).  The TTL expiry test compares
`timedelta.seconds` — the elapsed time modulo 86400 — with the timeout, so a
record whose true elapsed time is 86430 s (one day and 30 s) is judged fresh
against timeout = 60 and survives `_check_expired`, although 86430 > 60.
The STL test on the same numbers does judge the record expired. -/
theorem ttl_expiry_test_wraps_at_one_day :
    ttlExpired 86430 0 60 = false
    ∧ ((86430 : Int) - 0 > 60)
    ∧ checkExpired ttlExpired 86430 ⟨[(0, "a")], [("a", 0)], 60, 100, false, true⟩
        = .ok ⟨[(0, "a")], [("a", 0)], 60, 100, false, true⟩
    ∧ stlExpired 86430 0 60 = true := by
  exact ⟨rfl, by decide, rfl, rfl⟩

/-- Claim C9 (code_bug evidence).  `TTLArray._check_expired` is not
idempotent: with timeout 60, add "b" at t=0 and "a" at t=30; at t=86420 the
record for "a" is over age (86390 mod 86400 = 86390 > 60) but "b" is judged
fresh (86420 mod 86400 = 20).  The first check tests the head "a" and pops
the tail "b", leaving the over-age "a"; an immediate second check (same
clock) then evicts "a" as well, so the second call changes the state again. -/
theorem ttl_check_expired_not_idempotent :
    addOp ttlExpired 0 "b" (ttlInit (α := String) 60 false 100 true)
      = .ok ⟨[(0, "b")], [("b", 0)], 60, 100, false, true⟩
    ∧ addOp ttlExpired 30 "a" ⟨[(0, "b")], [("b", 0)], 60, 100, false, true⟩
      = .ok ⟨[(30, "a"), (0, "b")], [("b", 0), ("a", 30)], 60, 100, false, true⟩
    ∧ checkExpired ttlExpired 86420 ⟨[(30, "a"), (0, "b")], [("b", 0), ("a", 30)], 60, 100, false, true⟩
      = .ok ⟨[(30, "a")], [("a", 30)], 60, 100, false, true⟩
    ∧ checkExpired ttlExpired 86420 ⟨[(30, "a")], [("a", 30)], 60, 100, false, true⟩
      = .ok ⟨[], [], 60, 100, false, true⟩
    ∧ (⟨[(30, "a")], [("a", 30)], 60, 100, false, true⟩ : TTLState String)
        ≠ ⟨[], [], 60, 100, false, true⟩ := by
  exact ⟨rfl, rfl, rfl, rfl, by decide⟩

/-- Claim C8 (counterexample).  `items()` is not duplicate-free for every
sequence of operations: `LRUArray.load` restores the given sequence raw, so
loading ["a", "a"] into a capacity-2 LRU yields `items() == ["a", "a"]`. -/
theorem lru_items_duplicate_after_load :
    (lruItems (lruLoad ["a", "a"] (lruInit (α := String) 2 true))).2 = ["a", "a"]
    ∧ ¬ (lruItems (lruLoad ["a", "a"] (lruInit (α := String) 2 true))).2.Nodup := by
  exact ⟨rfl, by decide⟩

/-- Claim C6 (confirmed).  `load` on a snapshot dict missing `item_list` (or
`timing_list`) raises a KeyError naming the missing field; the error is
raised by the subscript before any mutation, so it carries the unchanged
state, and `expire_post` propagates it to the caller. -/
theorem ttl_load_missing_field_errors (test : Int → Int → Int → Bool) (now : Int)
    (d : TTLSnap α) (s : TTLState α) :
    (d.item_list = none → loadOp test now d s = .error ("KeyError: item_list", s))
    ∧ (∀ il, d.item_list = some il → d.timing_list = none →
        loadOp test now d s = .error ("KeyError: timing_list", s)) := by
  constructor
  · intro h
    simp [loadOp, h]
  · intro il h1 h2
    simp [loadOp, h1, h2]

/-- Claim C6 witness: concrete malformed snapshots for both missing fields. -/
theorem ttl_load_missing_field_errors_witness :
    loadOp (α := String) stlExpired 0 ⟨none, none, none⟩ (ttlInit 60 false 100 true)
      = .error ("KeyError: item_list", ttlInit 60 false 100 true)
    ∧ loadOp (α := String) stlExpired 0 ⟨none, some ["a"], none⟩ (ttlInit 60 false 100 true)
      = .error ("KeyError: timing_list", ttlInit 60 false 100 true) :=
  ⟨(ttl_load_missing_field_errors stlExpired 0 _ _).1 rfl,
   (ttl_load_missing_field_errors stlExpired 0 _ _).2 ["a"] rfl rfl⟩

/-- On an empty collection `_check_expired` does nothing: the retain-one gate
sees size 0, the capacity loop condition `0 > max_length` is false, and the
sweep snapshot is empty. -/
theorem checkExpired_of_empty (test : Int → Int → Int → Bool) (now : Int)
    (s : TTLState α) (h1 : s.timing = []) (h2 : s.items = []) :
    checkExpired test now s = .ok s := by
  have hr : checkRetainOne s = false := by simp [checkRetainOne, h2]
  have hm : checkMaxLength s = false := by simp [checkMaxLength, h2]
  simp [checkExpired, hr, capacityLoop, h1, capacityLoopFuel, hm, sweepLoop]

/-- Claim C10 (confirmed).  On an empty collection `dump` (with or without
`include_params`) returns `None` rather than a snapshot with empty lists, and
`load(dump())`, being `load(None)`, raises a TypeError on the subscript
before any mutation instead of restoring an empty collection. -/
theorem ttl_dump_empty_returns_none (test : Int → Int → Int → Bool) (now : Int)
    (ip : Bool) (s : TTLState α) (h1 : s.timing = []) (h2 : s.items = []) :
    dumpOp test now ip s = .ok (s, none)
    ∧ loadOptOp test now none s
        = .error ("TypeError: NoneType is not subscriptable", s) := by
  refine ⟨?_, rfl⟩
  simp [dumpOp, checkExpired_of_empty test now s h1 h2, h1]

/-- Claim C10 witness: a freshly constructed STL instance. -/
theorem ttl_dump_empty_returns_none_witness :
    dumpOp (α := String) stlExpired 0 true (ttlInit 60 false 100 true)
      = .ok (ttlInit 60 false 100 true, none)
    ∧ loadOptOp (α := String) stlExpired 0 none (ttlInit 60 false 100 true)
      = .error ("TypeError: NoneType is not subscriptable", ttlInit 60 false 100 true) :=
  ttl_dump_empty_returns_none stlExpired 0 true _ rfl rfl

/-- The LRU eviction loop only ever pops the tail, so its result is a sublist
of the original deque. -/
theorem lruCheckFuel_items_sublist (n : Nat) (s : LRUState α) :
    List.Sublist (lruCheckFuel n s).items s.items := by
  induction n generalizing s with
  | zero => exact List.Sublist.refl _
  | succ n ih =>
    unfold lruCheckFuel
    by_cases h : lruCheckMaxLength s = true
    · rw [if_pos h]
      exact (ih _).trans (List.dropLast_sublist _)
    · rw [if_neg h]

/-- Claim C8 (amended, the part that holds).  For the LRU variant:
`add(x)` with `x` already present (after the pre-check) removes the old
occurrence and reinserts `x` at the head without changing the length; `add`
preserves duplicate-freedom (so add-only histories keep `items()`
duplicate-free); and concretely, with capacity 2, add "a", add "b", add "a"
leaves `items() == ["a", "b"]`. -/
theorem lru_add_recency (s : LRUState α) (x : α) :
    (x ∈ (lruCheckExpired s).items →
      (lruAdd x s).items = x :: (lruCheckExpired s).items.erase x
      ∧ (lruAdd x s).items.length = (lruCheckExpired s).items.length)
    ∧ (s.items.Nodup → (lruAdd x s).items.Nodup)
    ∧ (lruItems (lruAdd "a" (lruAdd "b" (lruAdd "a" (lruInit (α := String) 2 true))))).2
        = ["a", "b"] := by
  refine ⟨?_, ?_, by decide⟩
  · intro hmem
    have h1 : ((lruCheckExpired s).items.erase x).length
        = (lruCheckExpired s).items.length - 1 := List.length_erase_of_mem hmem
    have h2 : 0 < (lruCheckExpired s).items.length := List.length_pos_of_mem hmem
    constructor
    · simp [lruAdd, hmem]
    · simp only [lruAdd, if_pos hmem, List.length_cons]
      omega
  · intro hnd
    have hnd1 : (lruCheckExpired s).items.Nodup :=
      List.Nodup.sublist (lruCheckFuel_items_sublist _ _) hnd
    by_cases hmem : x ∈ (lruCheckExpired s).items
    · simp only [lruAdd, if_pos hmem]
      exact List.nodup_cons.mpr
        ⟨fun hc => (((List.Nodup.mem_erase_iff hnd1).mp hc).1 rfl), hnd1.erase x⟩
    · simp only [lruAdd, if_neg hmem]
      exact List.nodup_cons.mpr ⟨hmem, hnd1⟩

/-- Claim C8 witness: a concrete relocation of a present element. -/
theorem lru_add_recency_witness :
    (lruAdd "a" (⟨["b", "a"], 5, true⟩ : LRUState String)).items
      = "a" :: (lruCheckExpired (⟨["b", "a"], 5, true⟩ : LRUState String)).items.erase "a"
    ∧ (lruAdd "a" (⟨["b", "a"], 5, true⟩ : LRUState String)).items.length
      = (lruCheckExpired (⟨["b", "a"], 5, true⟩ : LRUState String)).items.length
    ∧ (lruAdd "a" (⟨["b", "a"], 5, true⟩ : LRUState String)).items.Nodup := by
  refine ⟨?_, ?_, ?_⟩
  · exact ((lru_add_recency (⟨["b", "a"], 5, true⟩ : LRUState String) "a").1 (by decide)).1
  · exact ((lru_add_recency (⟨["b", "a"], 5, true⟩ : LRUState String) "a").1 (by decide)).2
  · exact (lru_add_recency (⟨["b", "a"], 5, true⟩ : LRUState String) "a").2.1 (by decide)

/-- `del` on a present key shrinks the dict by exactly one entry. -/
theorem dictErase_length (m : List (α × Int)) (k : α) :
    ∀ m2, dictErase m k = some m2 → m2.length + 1 = m.length := by
  induction m with
  | nil => intro m2 h; simp [dictErase] at h
  | cons p m ih =>
    obtain ⟨a, t⟩ := p
    intro m2 h
    rw [dictErase] at h
    by_cases hk : a = k
    · rw [if_pos hk] at h
      injection h with h
      subst h
      rfl
    · rw [if_neg hk] at h
      cases he : dictErase m k with
      | none => rw [he] at h; cases h
      | some r =>
        rw [he] at h
        injection h with h
        subst h
        simp [ih r he]

/-- What a successful `_remove_expired_item` does: pop the tail of the timing
deque, remove one dict entry, leave all parameters unchanged. -/
theorem removeExpiredItem_spec (s s2 : TTLState α) (h : removeExpiredItem s = .ok s2) :
    s2.timing = s.timing.dropLast ∧ s2.items.length + 1 = s.items.length
    ∧ s2.timeout = s.timeout ∧ s2.max_length = s.max_length
    ∧ s2.retain_one = s.retain_one := by
  unfold removeExpiredItem at h
  cases hl : s.timing.getLast? with
  | none => rw [hl] at h; cases h
  | some r =>
    rw [hl] at h
    cases he : dictErase s.items r.2 with
    | none =>
      simp only [he] at h
      cases h
    | some m =>
      simp only [he] at h
      injection h with h
      subst h
      exact ⟨rfl, dictErase_length _ _ _ he, rfl, rfl, rfl⟩

/-- The capacity loop exits only when `_check_max_length` is false. -/
theorem capacityLoopFuel_not_max (n : Nat) (s s2 : TTLState α)
    (h : capacityLoopFuel n s = .ok s2) : checkMaxLength s2 = false := by
  induction n generalizing s with
  | zero =>
    unfold capacityLoopFuel at h
    by_cases hm : checkMaxLength s = true
    · rw [if_pos hm] at h; cases h
    · rw [if_neg hm] at h
      injection h with h
      subst h
      exact Bool.not_eq_true _ ▸ eq_false_of_ne_true hm
  | succ n ih =>
    unfold capacityLoopFuel at h
    by_cases hm : checkMaxLength s = true
    · rw [if_pos hm] at h
      cases hr : removeExpiredItem s with
      | error e => rw [hr] at h; cases h
      | ok s1 => rw [hr] at h; exact ih s1 h
    · rw [if_neg hm] at h
      injection h with h
      subst h
      exact Bool.not_eq_true _ ▸ eq_false_of_ne_true hm

/-- The capacity loop only pops tails: its result timing deque is a sublist
of the original. -/
theorem capacityLoopFuel_timing_sublist (n : Nat) (s s2 : TTLState α)
    (h : capacityLoopFuel n s = .ok s2) : List.Sublist s2.timing s.timing := by
  induction n generalizing s with
  | zero =>
    unfold capacityLoopFuel at h
    by_cases hm : checkMaxLength s = true
    · rw [if_pos hm] at h; cases h
    · rw [if_neg hm] at h
      injection h with h
      subst h
      exact List.Sublist.refl _
  | succ n ih =>
    unfold capacityLoopFuel at h
    by_cases hm : checkMaxLength s = true
    · rw [if_pos hm] at h
      cases hr : removeExpiredItem s with
      | error e => rw [hr] at h; cases h
      | ok s1 =>
        rw [hr] at h
        have h1 := (removeExpiredItem_spec s s1 hr).1
        exact (ih s1 h).trans (h1 ▸ List.dropLast_sublist _)
    · rw [if_neg hm] at h
      injection h with h
      subst h
      exact List.Sublist.refl _

/-- When the capacity condition is already false the loop does nothing. -/
theorem capacityLoopFuel_ok_of_not_max (n : Nat) (s : TTLState α)
    (h : checkMaxLength s = false) : capacityLoopFuel n s = .ok s := by
  cases n <;> simp [capacityLoopFuel, h]

/-- The sweep never grows the dict. -/
theorem sweepLoop_items_le (test : Int → Int → Int → Bool) (now : Int)
    (snap : List (Int × α)) (s s2 : TTLState α)
    (h : sweepLoop test now snap s = .ok s2) : s2.items.length ≤ s.items.length := by
  induction snap generalizing s with
  | nil =>
    unfold sweepLoop at h
    injection h with h
    subst h
    exact Nat.le_refl _
  | cons p rest ih =>
    obtain ⟨ts, e⟩ := p
    unfold sweepLoop at h
    by_cases ht : test now ts s.timeout = true
    · rw [if_pos ht] at h
      cases hr : removeExpiredItem s with
      | error e2 => rw [hr] at h; cases h
      | ok s1 =>
        rw [hr] at h
        have h1 := (removeExpiredItem_spec s s1 hr).2.1
        have h2 := ih s1 h
        omega
    · rw [if_neg ht] at h
      injection h with h
      subst h
      exact Nat.le_refl _

/-- The sweep leaves `timeout` and `max_length` unchanged. -/
theorem sweepLoop_fields (test : Int → Int → Int → Bool) (now : Int)
    (snap : List (Int × α)) (s s2 : TTLState α)
    (h : sweepLoop test now snap s = .ok s2) :
    s2.timeout = s.timeout ∧ s2.max_length = s.max_length := by
  induction snap generalizing s with
  | nil =>
    unfold sweepLoop at h
    injection h with h
    subst h
    exact ⟨rfl, rfl⟩
  | cons p rest ih =>
    obtain ⟨ts, e⟩ := p
    unfold sweepLoop at h
    by_cases ht : test now ts s.timeout = true
    · rw [if_pos ht] at h
      cases hr : removeExpiredItem s with
      | error e2 => rw [hr] at h; cases h
      | ok s1 =>
        rw [hr] at h
        obtain ⟨_, _, hto, hml, _⟩ := removeExpiredItem_spec s s1 hr
        obtain ⟨i1, i2⟩ := ih s1 h
        exact ⟨i1.trans hto, i2.trans hml⟩
    · rw [if_neg ht] at h
      injection h with h
      subst h
      exact ⟨rfl, rfl⟩

/-- If every snapshot entry passes the expiry test and the snapshot has the
same length as the timing deque (as in `_check_expired`, where the snapshot
*is* the deque), a successful sweep empties the deque. -/
theorem sweepLoop_all_expired (test : Int → Int → Int → Bool) (now : Int)
    (snap : List (Int × α)) :
    ∀ (s s2 : TTLState α), (∀ p ∈ snap, test now p.1 s.timeout = true) →
      snap.length = s.timing.length →
      sweepLoop test now snap s = .ok s2 → s2.timing = [] := by
  induction snap with
  | nil =>
    intro s s2 _ hlen h
    unfold sweepLoop at h
    injection h with h
    subst h
    exact List.length_eq_zero.mp hlen.symm
  | cons p rest ih =>
    intro s s2 hall hlen h
    obtain ⟨ts, e⟩ := p
    unfold sweepLoop at h
    have ht : test now ts s.timeout = true := hall (ts, e) (List.mem_cons_self _ _)
    rw [if_pos ht] at h
    cases hr : removeExpiredItem s with
    | error e2 => rw [hr] at h; cases h
    | ok s1 =>
      rw [hr] at h
      obtain ⟨htm, _, hto, _, _⟩ := removeExpiredItem_spec s s1 hr
      refine ih s1 s2 ?_ ?_ h
      · intro q hq
        rw [hto]
        exact hall q (List.mem_cons_of_mem _ hq)
      · rw [htm, List.length_dropLast]
        simp only [List.length_cons] at hlen
        omega

/-- A sweep whose first snapshot entry is fresh does nothing. -/
theorem sweepLoop_head_fresh (test : Int → Int → Int → Bool) (now ts : Int)
    (e : α) (rest : List (Int × α)) (s : TTLState α)
    (ht : test now ts s.timeout = false) :
    sweepLoop test now ((ts, e) :: rest) s = .ok s := by
  simp [sweepLoop, ht]

/-- For a sorted timing deque (head newest), a successful STL `_check_expired`
is idempotent: running it again on its own result changes nothing.  (The TTL
variant is not: see the C9 counterexample — its mod-86400 elapsed test is not
monotone in record age.) -/
theorem stl_check_idem (now : Int) (s s1 : TTLState α)
    (hs : s.timing.Pairwise (fun a b => b.1 ≤ a.1))
    (h : checkExpired stlExpired now s = .ok s1) :
    checkExpired stlExpired now s1 = .ok s1 := by
  unfold checkExpired at h
  by_cases hg : checkRetainOne s = true
  · rw [if_pos hg] at h
    injection h with h
    subst h
    unfold checkExpired
    rw [if_pos hg]
  · rw [if_neg hg] at h
    cases hc : capacityLoop s with
    | error e => rw [hc] at h; cases h
    | ok s2 =>
      rw [hc] at h
      change sweepLoop stlExpired now s2.timing s2 = Except.ok s1 at h
      have hmax2 : checkMaxLength s2 = false := capacityLoopFuel_not_max _ _ _ hc
      have hsub : List.Sublist s2.timing s.timing := capacityLoopFuel_timing_sublist _ _ _ hc
      have hs2 : s2.timing.Pairwise (fun a b => b.1 ≤ a.1) := hs.sublist hsub
      have hmax1 : checkMaxLength s1 = false := by
        have h1 := sweepLoop_items_le stlExpired now s2.timing s2 s1 h
        have h2 := (sweepLoop_fields stlExpired now s2.timing s2 s1 h).2
        unfold checkMaxLength at hmax2 ⊢
        have h3 := of_decide_eq_false hmax2
        exact decide_eq_false (by omega)
      have hshape : s1.timing = [] ∨
          ∃ ts e rest, s1.timing = (ts, e) :: rest ∧ stlExpired now ts s1.timeout = false := by
        cases htm : s2.timing with
        | nil =>
          rw [htm] at h
          unfold sweepLoop at h
          injection h with h
          subst h
          exact Or.inl htm
        | cons p rest2 =>
          obtain ⟨ts, e⟩ := p
          by_cases ht : stlExpired now ts s2.timeout = true
          · refine Or.inl (sweepLoop_all_expired stlExpired now s2.timing s2 s1 ?_ rfl h)
            intro q hq
            rw [htm] at hq
            rcases List.mem_cons.mp hq with rfl | hq2
            · exact ht
            · have hle : q.1 ≤ ts := by
                rw [htm] at hs2
                exact (List.pairwise_cons.mp hs2).1 q hq2
              have ht2 : now - ts > s2.timeout := of_decide_eq_true ht
              exact decide_eq_true (by omega)
          · rw [htm] at h
            rw [sweepLoop_head_fresh stlExpired now ts e rest2 s2
              (eq_false_of_ne_true ht)] at h
            injection h with h
            subst h
            exact Or.inr ⟨ts, e, rest2, htm, eq_false_of_ne_true ht⟩
      unfold checkExpired
      by_cases hg1 : checkRetainOne s1 = true
      · rw [if_pos hg1]
      · rw [if_neg hg1]
        have hcap1 : capacityLoop s1 = .ok s1 := capacityLoopFuel_ok_of_not_max _ _ hmax1
        rw [hcap1]
        rcases hshape with he | ⟨ts, e, rest, he, ht⟩
        · show sweepLoop stlExpired now s1.timing s1 = .ok s1
          rw [he]
          rfl
        · show sweepLoop stlExpired now s1.timing s1 = .ok s1
          rw [he]
          exact sweepLoop_head_fresh stlExpired now ts e rest s1 ht

/-- Claim C7 (confirmed).  For an STL collection whose timing deque satisfies
the sorted-timing invariant (head newest), `deserialize(serialize())` with no
time elapsed between the calls succeeds and yields the identical ordered
timing sequence — same elements, same order, same timestamps.  (`serialize`
runs the pre-check and emits the pruned deque; `deserialize` restores exactly
that deque, and the post-check, by idempotence of the STL check, changes
nothing.) -/
theorem stl_serialize_deserialize_roundtrip (now : Int) (s s1 : TTLState α)
    (out : List (Int × α))
    (hs : s.timing.Pairwise (fun a b => b.1 ≤ a.1))
    (h : serializeOp stlExpired now s = .ok (s1, out)) :
    deserializeOp stlExpired now out s1 = .ok s1 ∧ s1.timing = out := by
  unfold serializeOp at h
  cases hc : checkExpired stlExpired now s with
  | error e => rw [hc] at h; cases h
  | ok s2 =>
    rw [hc] at h
    injection h with h
    rw [Prod.mk.injEq] at h
    obtain ⟨h1, h2⟩ := h
    subst h1
    subst h2
    refine ⟨?_, rfl⟩
    show checkExpired stlExpired now { s2 with timing := s2.timing } = .ok s2
    exact stl_check_idem now s s2 hs hc

/-- Claim C7 witness: a one-element sorted STL state, serialized and
deserialized at the same instant. -/
theorem stl_serialize_deserialize_roundtrip_witness :
    deserializeOp stlExpired 0 [(0, "a")]
        (⟨[(0, "a")], [("a", 0)], 60, 100, false, true⟩ : TTLState String)
      = .ok ⟨[(0, "a")], [("a", 0)], 60, 100, false, true⟩
    ∧ (⟨[(0, "a")], [("a", 0)], 60, 100, false, true⟩ : TTLState String).timing
      = [(0, "a")] :=
  stl_serialize_deserialize_roundtrip 0
    (⟨[(0, "a")], [("a", 0)], 60, 100, false, true⟩ : TTLState String)
    (⟨[(0, "a")], [("a", 0)], 60, 100, false, true⟩ : TTLState String)
    [(0, "a")] (by decide) rfl
